import Mathlib

/-!
Verification of the authentication / authorization and error-translation core of
the `fastapi-learning` repository (Project 1 book API, Project 3 TodoApp),
as a shallow embedding.

Source files embedded:
- `Project 3/TodoApp/routers/auth.py` (authenticate_user, create_access_token,
  get_current_user, login)
- `Project 3/TodoApp/routers/admin.py` (get_all_todos)
- `Project 3/TodoApp/routers/todos.py` (read_all)
- `Project 1/rescue.py` (the exception handlers / dispatcher)
- `Project 1/api_response.py` (json_response)
- `Project 1/exceptions/*.py` (the exception classes)

Time is modelled as a natural-number timestamp.  The JWT library
(python-jose) is modelled symbolically: a token is its payload together with
the key and algorithm it was signed with; `jwt.decode` succeeds exactly when
the supplied key matches the signing key, the signing algorithm is in the
allowed list, and the `exp` claim has not passed (python-jose rejects with
`ExpiredSignatureError ⊆ JWTError` exactly when `exp < now`, with zero
leeway).
-/

namespace FastapiLearning

/-- The single-quote character, used in exception message templates
(`f"{resource} with identifier '{identifier}' not found"` etc.). -/
def squote : String := (Char.ofNat 39).toString

/-! ### JWT layer (python-jose, symbolic) -/

/-- The claim set written by `create_access_token`:
`{"sub": username, "id": user_id, "role": role, "exp": expires}`.
`sub`/`id`/`role` are optional because `payload.get` in `get_current_user`
may return `None` for tokens produced elsewhere. -/
structure Claims where
  sub : Option String
  id : Option Int
  role : Option String
  exp : Nat
deriving Repr, DecidableEq

/-- A signed token: the payload plus the key and algorithm it was signed
with.  Signature validity is modelled as equality of the stored key with the
key supplied at decode time (tamper-evidence is implicit: the payload is
fixed inside the structure). -/
structure Jwt where
  payload : Claims
  key : String
  alg : String
deriving Repr, DecidableEq

/-- Errors raised by `jose.jwt.decode`; all are subclasses of `JWTError`. -/
inductive JWTError where
  | invalidAlgorithm
  | invalidSignature
  | expiredSignature
deriving Repr, DecidableEq

/-- `jose.jwt.decode(token, key, algorithms)` at time `now`: checks the
algorithm against the allowed list, the signature (key match), and the
`exp` claim (`ExpiredSignatureError` iff `exp < now`, zero leeway). -/
def jwtDecode (token : Jwt) (key : String) (algorithms : List String)
    (now : Nat) : Except JWTError Claims :=
  if token.alg ∉ algorithms then .error .invalidAlgorithm
  else if token.key ≠ key then .error .invalidSignature
  else if token.payload.exp < now then .error .expiredSignature
  else .ok token.payload

/-! ### Settings messages

`settings.user_validation_failed_message` and `settings.auth_failed_message`
are read from configuration; their concrete values are not in
`config/settings.py`.  Modelled from the spec: a fixed generic
invalid-credentials message (§8: "generic invalid-credentials message,
identical shape regardless of why the token was invalid").  No claim
depends on the concrete string, only on the status code and on the message
being one fixed value. -/

/-- Modelled from the spec: the generic invalid-credentials message held in
`settings.user_validation_failed_message` (value absent from src). -/
def user_validation_failed_message : String := "Could not validate user."

/-- Modelled from the spec: the generic message held in
`settings.auth_failed_message` (value absent from src). -/
def auth_failed_message : String := "Authentication failed"

/-- `fastapi.HTTPException(status_code, detail)`. -/
structure HTTPError where
  status_code : Nat
  detail : String
deriving Repr, DecidableEq

/-! ### `routers/auth.py` -/

/-- A row of the `Users` table, as consumed by `authenticate_user` and
`login` (`username`, `hashed_password`, `id`, `role`). -/
structure UserRecord where
  username : String
  hashed_password : String
  id : Int
  role : String
deriving Repr, DecidableEq

/-- `authenticate_user(username, password, db)`:
looks up the first user with the given username; returns `False`
(modelled `none`) if absent or if `bcrypt_context.verify` fails,
otherwise the full user record.  `verify` is the abstract
`bcrypt_context.verify` primitive. -/
def authenticate_user (verify : String → String → Bool)
    (username password : String) (db : List UserRecord) : Option UserRecord :=
  match db.find? (fun u => u.username == username) with
  | none => none
  | some user => if !(verify password user.hashed_password) then none else some user

/-- `create_access_token(username, user_id, role, expires_delta)` issued at
time `now` with the configured `SECRET_KEY` / `ALGORITHM`:
payload `{"sub": username, "id": user_id, "role": role, "exp": now + delta}`
signed with the given key and algorithm. -/
def create_access_token (username : String) (user_id : Int) (role : String)
    (expires_delta : Nat) (now : Nat) (secret_key algorithm : String) : Jwt :=
  { payload := { sub := some username, id := some user_id, role := some role,
                 exp := now + expires_delta },
    key := secret_key, alg := algorithm }

/-- The dict returned by `get_current_user`:
`{"username": ..., "id": ..., "user_role": ...}` (`user_role` may be `None`). -/
structure UserDict where
  username : String
  id : Int
  user_role : Option String
deriving Repr, DecidableEq

/-- `get_current_user(token)` at time `now`, with the configured key and
algorithm: decodes the token (any `JWTError` becomes a 401 with the generic
message), then rejects with 401 if `sub` or `id` is `None`; otherwise
returns the user dict.  The Python function returns a dict value (never
`None`), hence the `Option UserDict` success type always holds `some`. -/
def get_current_user (token : Jwt) (secret_key algorithm : String)
    (now : Nat) : Except HTTPError (Option UserDict) :=
  match jwtDecode token secret_key [algorithm] now with
  | .error _ => .error { status_code := 401, detail := user_validation_failed_message }
  | .ok payload =>
      match payload.sub, payload.id with
      | some username, some user_id =>
          .ok (some { username := username, id := user_id, user_role := payload.role })
      | _, _ => .error { status_code := 401, detail := user_validation_failed_message }

/-- The body returned by a successful `login`:
`{"access_token": token, "token_type": "bearer"}`.  The `timestamp` field is
modelled from the spec: the response envelope adds a server-generated UTC
timestamp to every body (§4.2 / §8 scenario); the `Token` response schema
(`schemas/token.py`) is absent from src. -/
structure TokenBody where
  access_token : Jwt
  token_type : String
  timestamp : String
deriving Repr, DecidableEq

/-- Wire-level outcome of the `/auth/login` route: the route decorator fixes
status 200 on success; failure raises `HTTPException(401, ...)`. -/
inductive LoginWire where
  | ok (status : Nat) (body : TokenBody)
  | err (status : Nat) (detail : String)
deriving Repr, DecidableEq

/-- `login(form_data, db)` at time `now` with timestamp `ts`:
authenticates; on failure raises `HTTPException(401, generic message)`;
on success issues a token for `(user.username, user.id, user.role)` with
the configured TTL and returns the bearer body with status 200. -/
def login (verify : String → String → Bool) (username password : String)
    (db : List UserRecord) (now expire_minutes_delta : Nat)
    (secret_key algorithm ts : String) : LoginWire :=
  match authenticate_user verify username password db with
  | none => .err 401 user_validation_failed_message
  | some user =>
      .ok 200 { access_token := create_access_token user.username user.id user.role
                  expire_minutes_delta now secret_key algorithm,
                token_type := "bearer",
                timestamp := ts }

/-! ### `Project 1/exceptions/*.py`

Each exception class stores `message` and `status_code` via
`APIException.__init__(message, status_code)` (the `api_exception.py` base
class is absent from src; modelled from the spec's `DomainError`
description: a variant carrying `message` and `http_status`). -/

/-- `RecordNotFound(resource, identifier)`. -/
structure RecordNotFound where
  resource : String
  identifier : String
deriving Repr, DecidableEq

/-- `message = f"{resource} with identifier '{identifier}' not found"`. -/
def RecordNotFound.message (e : RecordNotFound) : String :=
  e.resource ++ " with identifier " ++ squote ++ e.identifier ++ squote ++ " not found"

/-- `RecordNotFound` is constructed with `status.HTTP_404_NOT_FOUND`. -/
def RecordNotFound.status_code (_ : RecordNotFound) : Nat := 404

/-- `RecordInvalid(message)`. -/
structure RecordInvalid where
  message : String
deriving Repr, DecidableEq

/-- `RecordInvalid` is constructed with `status.HTTP_422_UNPROCESSABLE_ENTITY`. -/
def RecordInvalid.status_code (_ : RecordInvalid) : Nat := 422

/-- `UnpermittedParameters(params)`. -/
structure UnpermittedParameters where
  params : List String
deriving Repr, DecidableEq

/-- `message = f"Unpermitted parameters: {', '.join(params)}"`. -/
def UnpermittedParameters.message (e : UnpermittedParameters) : String :=
  "Unpermitted parameters: " ++ String.intercalate ", " e.params

/-- `UnpermittedParameters` is constructed with the literal `400`. -/
def UnpermittedParameters.status_code (_ : UnpermittedParameters) : Nat := 400

/-- `ParameterMissing(param)`. -/
structure ParameterMissing where
  param : String
deriving Repr, DecidableEq

/-- `message = f"Parameter '{param}' is required"`. -/
def ParameterMissing.message (e : ParameterMissing) : String :=
  "Parameter " ++ squote ++ e.param ++ squote ++ " is required"

/-- `ParameterMissing` is constructed with
`status.HTTP_422_UNPROCESSABLE_ENTITY`. -/
def ParameterMissing.status_code (_ : ParameterMissing) : Nat := 422

/-- `NotAuthorized(message="Not authorized")`, constructed with
`status.HTTP_403_FORBIDDEN` (`Project 1/exceptions/not_authorized.py`). -/
structure NotAuthorized where
  message : String
deriving Repr, DecidableEq

/-- `NotAuthorized` is constructed with `status.HTTP_403_FORBIDDEN`. -/
def NotAuthorized.status_code (_ : NotAuthorized) : Nat := 403

/-- One entry of `RequestValidationError.errors()`: its location path `loc`
(elements rendered through `str(...)`) and its message `msg`. -/
structure ValidationEntry where
  loc : List String
  msg : String
deriving Repr, DecidableEq

/-- `fastapi.exceptions.RequestValidationError`. -/
structure RequestValidationError where
  errors : List ValidationEntry
deriving Repr, DecidableEq

/-- Any raisable error reaching the exception-handler boundary.
`unexpected detail` stands for an arbitrary exception matching none of the
registered handlers; `detail` carries its text / class name / traceback. -/
inductive PyError where
  | recordNotFound (exc : RecordNotFound)
  | recordInvalid (exc : RecordInvalid)
  | unpermittedParameters (exc : UnpermittedParameters)
  | parameterMissing (exc : ParameterMissing)
  | notAuthorized (exc : NotAuthorized)
  | requestValidationError (exc : RequestValidationError)
  | valueError (message : String)
  | unexpected (detail : String)
deriving Repr, DecidableEq

/-! ### `Project 1/api_response.py` and `Project 1/rescue.py` -/

/-- JSON values, as far as the error bodies need them. -/
inductive Json where
  | str (s : String)
  | arr (elems : List Json)
  | obj (fields : List (String × Json))
deriving Repr

/-- A rendered response: a status code and a JSON-object body given as its
top-level field list. -/
structure Response where
  status_code : Nat
  content : List (String × Json)
deriving Repr

/-- `json_response(data, status)`: merges a server-generated timestamp into
the payload at the top level
(`{**data, "timestamp": datetime.now(timezone.utc).isoformat()}`). -/
def json_response (data : List (String × Json)) (status : Nat)
    (ts : String) : Response :=
  { status_code := status, content := data ++ [("timestamp", Json.str ts)] }

/-- Python dict assignment `d[k] = v`: replaces the value at an existing
key in place, otherwise appends the pair (insertion order preserved). -/
def dictInsert (k : String) (v : List String) :
    List (String × List String) → List (String × List String)
  | [] => [(k, v)]
  | (k2, v2) :: rest =>
      if k2 == k then (k, v) :: rest else (k2, v2) :: dictInsert k v rest

/-- Python dict lookup `d[k]` (first, hence unique, binding of `k`). -/
def dictLookup (k : String) : List (String × List String) → Option (List String)
  | [] => none
  | (k2, v2) :: rest => if k2 == k then some v2 else dictLookup k rest

/-- The field key derived for one validation entry:
`".".join(str(loc) for loc in error["loc"][1:])` — the outermost location
segment (the body/query marker) is dropped. -/
def derived_field (e : ValidationEntry) : String :=
  String.intercalate "." (e.loc.drop 1)

/-- The loop body of `rescue_from_validation_error`: a single pass over
`exc.errors()` building `errors[field] = [error["msg"]]`. -/
def build_validation_errors (entries : List ValidationEntry) :
    List (String × List String) :=
  entries.foldl (fun acc e => dictInsert (derived_field e) [e.msg] acc) []

/-- Rendering of the aggregated field-error map as the `errors` object. -/
def errMapJson (m : List (String × List String)) : List (String × Json) :=
  m.map (fun p => (p.1, Json.arr (p.2.map Json.str)))

/-- The exception handlers installed by `setup_exception_handlers`, as one
total dispatch function, returning the rendered response and the list of
server-side log lines.  Branches mirror `Project 1/rescue.py` one-for-one,
except `notAuthorized`, which is modelled from the spec: the TodoApp's
`config/rescue.py` (absent from src) renders `NotAuthorized` per the spec
table row `NotAuthorized → 403, {errors: {message}}`, using the class's
stored message and status code. -/
def dispatch (e : PyError) (ts : String) : Response × List String :=
  match e with
  | .recordNotFound exc =>
      (json_response [("errors", .obj [("message", .str exc.message)])]
        exc.status_code ts, [])
  | .recordInvalid exc =>
      (json_response [("errors", .obj [("message", .str exc.message)])]
        exc.status_code ts, [])
  | .unpermittedParameters exc =>
      (json_response [("errors", .obj [("unknown_parameters", .arr (exc.params.map .str))])]
        exc.status_code ts, [])
  | .parameterMissing exc =>
      (json_response [("errors", .obj [(exc.param, .arr [.str "parameter is required"])])]
        400 ts, [])
  | .notAuthorized exc =>
      (json_response [("errors", .obj [("message", .str exc.message)])]
        exc.status_code ts, [])
  | .requestValidationError exc =>
      (json_response [("errors", .obj (errMapJson (build_validation_errors exc.errors)))]
        422 ts, [])
  | .valueError message =>
      (json_response [("errors", .obj [("message", .str message)])] 400 ts, [])
  | .unexpected detail =>
      (json_response [("errors", .obj [("message", .str "Internal server error")])]
        500 ts, ["Unhandled exception: " ++ detail])

/-! ### `routers/admin.py` and `routers/todos.py` handlers -/

/-- A row of the `Todos` table, as far as the embedded handlers read it. -/
structure Todo where
  id : Int
  owner_id : Int
deriving Repr, DecidableEq

/-- `admin.get_all_todos(user, db)`: raises `NotAuthorized()` when the
resolved user is `None`, `NotAuthorized("Admin access required")` when
`user.get("user_role") != "admin"` (flat string comparison), otherwise
returns all todos. -/
def get_all_todos (user : Option UserDict) (db : List Todo) :
    Except PyError (List Todo) :=
  match user with
  | none => .error (.notAuthorized { message := "Not authorized" })
  | some u =>
      if u.user_role ≠ some "admin" then
        .error (.notAuthorized { message := "Admin access required" })
      else .ok db

/-- `todos.read_all(user, db)`: raises `HTTPException(401, ...)` when the
resolved user is `None`, otherwise returns the todos owned by the user. -/
def read_all (user : Option UserDict) (db : List Todo) :
    Except HTTPError (List Todo) :=
  match user with
  | none => .error { status_code := 401, detail := auth_failed_message }
  | some u => .ok (db.filter (fun t => t.owner_id == u.id))

/-! ### Theorems -/

/-- Claim C1: token round-trip.  For every identity `(username, user_id,
role)` and every TTL `delta`, decoding a token produced by
`create_access_token` with the same signing key and algorithm at any time
strictly before the token's expiry yields the original identity; at any
time strictly after the expiry, verification fails with the 401
token-invalid error, with no grace window. -/
theorem token_roundtrip (username : String) (user_id : Int) (role : String)
    (delta t0 t : Nat) (key alg : String) :
    (t < t0 + delta →
      get_current_user (create_access_token username user_id role delta t0 key alg)
          key alg t
        = .ok (some { username := username, id := user_id, user_role := some role })) ∧
    (t0 + delta < t →
      get_current_user (create_access_token username user_id role delta t0 key alg)
          key alg t
        = .error { status_code := 401, detail := user_validation_failed_message }) := by
  refine ⟨fun h => ?_, fun h => ?_⟩
  · have hne : ¬ (t0 + delta < t) := by omega
    simp [get_current_user, create_access_token, jwtDecode, hne]
  · simp [get_current_user, create_access_token, jwtDecode, h]

/-- Witness for C1 at a concrete identity: verification at time 3 of a
token issued at time 0 with TTL 10 succeeds with the original identity, and
verification at time 11 of a token issued at time 0 with TTL 10 fails with
the 401 error. -/
theorem token_roundtrip_witness :
    ((3 : Nat) < 0 + 10 ∧
      get_current_user (create_access_token "alice" 1 "user" 10 0 "k" "HS256")
          "k" "HS256" 3
        = .ok (some { username := "alice", id := 1, user_role := some "user" })) ∧
    ((0 : Nat) + 10 < 11 ∧
      get_current_user (create_access_token "alice" 1 "user" 10 0 "k" "HS256")
          "k" "HS256" 11
        = .error { status_code := 401, detail := user_validation_failed_message }) :=
  ⟨⟨by decide, (token_roundtrip "alice" 1 "user" 10 0 3 "k" "HS256").1 (by decide)⟩,
   ⟨by decide, (token_roundtrip "alice" 1 "user" 10 0 11 "k" "HS256").2 (by decide)⟩⟩

/-- Claim C9: a token signed with the correct key and algorithm whose
payload has non-null `sub` and `id` but no `role` claim passes
`get_current_user` (when not expired) and yields a user dict whose
`user_role` is `None`; the absent role never causes rejection at the
token-verification step. -/
theorem role_claim_optional (username : String) (user_id : Int)
    (e now : Nat) (key alg : String) (h : now ≤ e) :
    get_current_user
        { payload := { sub := some username, id := some user_id, role := none, exp := e },
          key := key, alg := alg } key alg now
      = .ok (some { username := username, id := user_id, user_role := none }) := by
  have hne : ¬ (e < now) := by omega
  simp [get_current_user, jwtDecode, hne]

/-- Witness for C9: a role-less token with `sub = "bob"`, `id = 7`,
expiry 100, verified at time 5, resolves to a user dict with `user_role = none`. -/
theorem role_claim_optional_witness :
    (5 : Nat) ≤ 100 ∧
    get_current_user
        { payload := { sub := some "bob", id := some 7, role := none, exp := 100 },
          key := "k", alg := "HS256" } "k" "HS256" 5
      = .ok (some { username := "bob", id := 7, user_role := none }) :=
  ⟨by decide, role_claim_optional "bob" 7 100 5 "k" "HS256" (by decide)⟩

/-- Claim C10: whenever `get_current_user` returns (rather than raising a
401), the resolved user is non-`None`; consequently the `user is None`
guard branches of `read_all` (the 401) and `get_all_todos` (the
`NotAuthorized()` with the default message) are unreachable for users
resolved through `get_current_user`. -/
theorem resolved_identity_nonnull (token : Jwt) (key alg : String) (now : Nat)
    (u : Option UserDict) (db1 db2 : List Todo)
    (h : get_current_user token key alg now = .ok u) :
    u ≠ none ∧
    (∀ e, read_all u db1 ≠ .error e) ∧
    get_all_todos u db2 ≠ .error (.notAuthorized { message := "Not authorized" }) := by
  obtain ⟨d, rfl⟩ : ∃ d, u = some d := by
    unfold get_current_user at h
    split at h
    · exact absurd h (by simp)
    · split at h
      · exact ⟨_, (by injection h with h2; exact h2.symm)⟩
      · exact absurd h (by simp)
  refine ⟨by simp, by intro e; simp [read_all], ?_⟩
  by_cases hrole : d.user_role = some "admin"
  · simp [get_all_todos, hrole]
  · intro hcontra
    simp [get_all_todos, hrole] at hcontra

/-- Witness for C10: a concrete valid token resolves to a non-`None` user;
`read_all` raises no error and `get_all_todos` does not take the
`user is None` branch. -/
theorem resolved_identity_nonnull_witness :
    get_current_user (create_access_token "alice" 1 "user" 10 0 "k" "HS256")
        "k" "HS256" 3
      = .ok (some { username := "alice", id := 1, user_role := some "user" }) ∧
    ((some { username := "alice", id := 1, user_role := some "user" } : Option UserDict) ≠ none ∧
     (∀ e, read_all (some { username := "alice", id := 1, user_role := some "user" }) [] ≠ .error e) ∧
     get_all_todos (some { username := "alice", id := 1, user_role := some "user" }) []
       ≠ .error (.notAuthorized { message := "Not authorized" })) :=
  ⟨by rfl,
   resolved_identity_nonnull (create_access_token "alice" 1 "user" 10 0 "k" "HS256")
     "k" "HS256" 3 _ [] [] (by rfl)⟩

/-- Claim C4: uniform authentication failure.  The value returned by
`authenticate_user` on an unknown subject is the same generic failure value
(`False`, modelled `none`) as on a known subject with a non-matching
password; the result does not reveal which case occurred. -/
theorem authenticate_uniform_failure (verify : String → String → Bool)
    (db : List UserRecord) (u1 p1 u2 p2 : String)
    (h1 : db.find? (fun u => u.username == u1) = none)
    (h2 : ∀ rec, db.find? (fun u => u.username == u2) = some rec →
        verify p2 rec.hashed_password = false) :
    authenticate_user verify u1 p1 db = authenticate_user verify u2 p2 db ∧
    authenticate_user verify u1 p1 db = none := by
  unfold authenticate_user
  rw [h1]
  cases hf : db.find? (fun u => u.username == u2) with
  | none => exact ⟨rfl, rfl⟩
  | some rec => simp [h2 rec hf]

/-- Witness for C4: with one stored user `alice` and a verifier that only
accepts the matching plaintext, the unknown subject `mallory` and the known
subject `alice` with a wrong password produce the same failure value. -/
theorem authenticate_uniform_failure_witness :
    ([{ username := "alice", hashed_password := "pw1-h", id := 1, role := "user" }]
        : List UserRecord).find? (fun u => u.username == "mallory") = none ∧
    authenticate_user (fun pw h => pw ++ "-h" == h) "mallory" "guess"
        [{ username := "alice", hashed_password := "pw1-h", id := 1, role := "user" }]
      = authenticate_user (fun pw h => pw ++ "-h" == h) "alice" "wrong"
        [{ username := "alice", hashed_password := "pw1-h", id := 1, role := "user" }] :=
  ⟨by decide,
   (authenticate_uniform_failure (fun pw h => pw ++ "-h" == h)
     [{ username := "alice", hashed_password := "pw1-h", id := 1, role := "user" }]
     "mallory" "guess" "alice" "wrong" (by decide)
     (fun rec hrec => by
       have hR : ([{ username := "alice", hashed_password := "pw1-h", id := 1, role := "user" }]
           : List UserRecord).find? (fun u => u.username == "alice")
           = some { username := "alice", hashed_password := "pw1-h", id := 1, role := "user" } := by
         decide
       rw [hR] at hrec
       injection hrec with h2
       rw [← h2]
       decide)).1⟩

/-- Claim C5, counterexample: the value returned by `authenticate_user` on
a successful verification is the full stored record and does contain the
stored password hash (here `"bcrypt-hash-1"`), contradicting "the returned
value does not contain the stored password hash". -/
theorem authenticate_returns_hash_counterexample :
    (authenticate_user (fun _ _ => true) "alice" "pw"
        [{ username := "alice", hashed_password := "bcrypt-hash-1", id := 1, role := "user" }]).map
      UserRecord.hashed_password = some "bcrypt-hash-1" := by decide

/-- Claim C5 as amended: for every stored credential whose password
verifies, `authenticate_user` returns the full stored user record — whose
`username`, `id` and `role` are the resolved identity — and that returned
value still carries the stored password hash. -/
theorem authenticate_success_returns_record (verify : String → String → Bool)
    (db : List UserRecord) (username password : String) (rec : UserRecord)
    (hf : db.find? (fun u => u.username == username) = some rec)
    (hv : verify password rec.hashed_password = true) :
    authenticate_user verify username password db = some rec ∧
    (authenticate_user verify username password db).map UserRecord.hashed_password
      = some rec.hashed_password := by
  unfold authenticate_user
  rw [hf]
  simp [hv]

/-- Witness for the amended C5: a matching password returns the stored
record of `alice`, hash included. -/
theorem authenticate_success_returns_record_witness :
    ([{ username := "alice", hashed_password := "pw1-h", id := 1, role := "user" }]
        : List UserRecord).find? (fun u => u.username == "alice")
      = some { username := "alice", hashed_password := "pw1-h", id := 1, role := "user" } ∧
    authenticate_user (fun pw h => pw ++ "-h" == h) "alice" "pw1"
        [{ username := "alice", hashed_password := "pw1-h", id := 1, role := "user" }]
      = some { username := "alice", hashed_password := "pw1-h", id := 1, role := "user" } :=
  ⟨by decide,
   (authenticate_success_returns_record (fun pw h => pw ++ "-h" == h)
     [{ username := "alice", hashed_password := "pw1-h", id := 1, role := "user" }]
     "alice" "pw1" _ (by decide) (by decide)).1⟩

/-- Claim C2: totality and non-leakage of the catch-all.  Any error
matching none of the registered handlers is rendered by
`rescue_from_general_exception` with status 500 and the exact body
`{errors: {message: "Internal server error"}}` plus the timestamp, while
the full diagnostic detail is logged server-side; the rendered response is
one constant, independent of the raised error, so the body never carries
the original error's text, class name, or trace. -/
theorem dispatch_unexpected_total (detail ts : String) :
    dispatch (.unexpected detail) ts
      = ({ status_code := 500,
           content := [("errors", .obj [("message", .str "Internal server error")]),
                       ("timestamp", .str ts)] },
         ["Unhandled exception: " ++ detail]) ∧
    ∀ d2 : String,
      (dispatch (.unexpected detail) ts).1 = (dispatch (.unexpected d2) ts).1 :=
  ⟨rfl, fun _ => rfl⟩

/-- Claim C3: admin role gate.  For a request resolved (via
`get_current_user`) to a valid user whose `user_role` is not `"admin"`
(flat string comparison), `get_all_todos` raises
`NotAuthorized("Admin access required")`, and the dispatcher renders it
with status 403 and body `{errors: {message: "Admin access required"},
timestamp}`. -/
theorem admin_role_gate (token : Jwt) (key alg : String) (now : Nat)
    (u : UserDict) (db : List Todo) (ts : String)
    (_hvalid : get_current_user token key alg now = .ok (some u))
    (hrole : u.user_role ≠ some "admin") :
    get_all_todos (some u) db
      = .error (.notAuthorized { message := "Admin access required" }) ∧
    (dispatch (.notAuthorized { message := "Admin access required" }) ts).1
      = { status_code := 403,
          content := [("errors", .obj [("message", .str "Admin access required")]),
                      ("timestamp", .str ts)] } := by
  refine ⟨?_, rfl⟩
  simp [get_all_todos, hrole]

/-- Witness for C3: a valid token for `alice` with role `"user"` is
rejected by the admin route with the 403 `"Admin access required"`
envelope. -/
theorem admin_role_gate_witness :
    get_current_user (create_access_token "alice" 1 "user" 10 0 "k" "HS256")
        "k" "HS256" 3
      = .ok (some { username := "alice", id := 1, user_role := some "user" }) ∧
    ((some "user" : Option String) ≠ some "admin") ∧
    (get_all_todos (some { username := "alice", id := 1, user_role := some "user" }) []
        = .error (.notAuthorized { message := "Admin access required" }) ∧
     (dispatch (.notAuthorized { message := "Admin access required" }) "t0").1
       = { status_code := 403,
           content := [("errors", .obj [("message", .str "Admin access required")]),
                       ("timestamp", .str "t0")] }) :=
  ⟨by rfl, by decide,
   admin_role_gate (create_access_token "alice" 1 "user" 10 0 "k" "HS256")
     "k" "HS256" 3 { username := "alice", id := 1, user_role := some "user" } [] "t0"
     (by rfl) (by decide)⟩

/-- Claim C7, counterexample: the `ParameterMissing` class carries status
422 (`status.HTTP_422_UNPROCESSABLE_ENTITY` in its constructor), but the
dispatcher renders it with the hard-coded `status.HTTP_400_BAD_REQUEST`,
so for the instance `ParameterMissing("title")` the carried status does
not equal the rendered status. -/
theorem parameter_missing_status_counterexample :
    ParameterMissing.status_code { param := "title" } = 422 ∧
    (dispatch (.parameterMissing { param := "title" }) "t0").1.status_code = 400 ∧
    (422 : Nat) ≠ 400 :=
  ⟨rfl, rfl, by decide⟩

/-- Claim C7 as amended: every kind renders with exactly one fixed status
code — 404 for `RecordNotFound`, 422 for `RecordInvalid`, 400 for
`UnpermittedParameters`, 403 for `NotAuthorized`, 400 for
`ParameterMissing` — and for all of these except `ParameterMissing` the
status carried by the error value equals the rendered status;
`ParameterMissing` carries 422 but is rendered with status 400 and payload
`{errors: {<param>: ["parameter is required"]}}`. -/
theorem kind_status_mapping (rnf : RecordNotFound) (ri : RecordInvalid)
    (up : UnpermittedParameters) (pm : ParameterMissing) (na : NotAuthorized)
    (ts : String) :
    ((dispatch (.recordNotFound rnf) ts).1.status_code = 404 ∧ rnf.status_code = 404) ∧
    ((dispatch (.recordInvalid ri) ts).1.status_code = 422 ∧ ri.status_code = 422) ∧
    ((dispatch (.unpermittedParameters up) ts).1.status_code = 400 ∧ up.status_code = 400) ∧
    ((dispatch (.notAuthorized na) ts).1.status_code = 403 ∧ na.status_code = 403) ∧
    ((dispatch (.parameterMissing pm) ts).1.status_code = 400 ∧ pm.status_code = 422 ∧
      (dispatch (.parameterMissing pm) ts).1.content
        = [("errors", .obj [(pm.param, .arr [.str "parameter is required"])]),
           ("timestamp", .str ts)]) :=
  ⟨⟨rfl, rfl⟩, ⟨rfl, rfl⟩, ⟨rfl, rfl⟩, ⟨rfl, rfl⟩, rfl, rfl, rfl⟩

/-- Inserting a key that is not yet bound appends the pair at the end
(Python dict insertion order). -/
theorem dictInsert_fresh (k : String) (v : List String) :
    ∀ m : List (String × List String), k ∉ m.map Prod.fst →
      dictInsert k v m = m ++ [(k, v)] := by
  intro m
  induction m with
  | nil => intro _; rfl
  | cons p rest ih =>
      intro h
      obtain ⟨k2, v2⟩ := p
      have hk : ¬ (k2 = k) := fun hkk => h (by simp [hkk])
      have htl : k ∉ rest.map Prod.fst := fun hm => h (by simp [hm])
      simp [dictInsert, hk, ih htl]

/-- The single pass of `rescue_from_validation_error` over entries with
pairwise-distinct derived field keys builds, from any accumulator disjoint
from those keys, the accumulator extended by one `(field, [msg])` pair per
entry, in order. -/
theorem foldl_dictInsert_eq (entries : List ValidationEntry) :
    ∀ acc : List (String × List String),
      (entries.map derived_field).Nodup →
      (∀ e ∈ entries, derived_field e ∉ acc.map Prod.fst) →
      entries.foldl (fun acc e => dictInsert (derived_field e) [e.msg] acc) acc
        = acc ++ entries.map (fun e => (derived_field e, [e.msg])) := by
  induction entries with
  | nil => intro acc _ _; simp
  | cons e es ih =>
      intro acc hnd hdisj
      have hfresh : derived_field e ∉ acc.map Prod.fst :=
        hdisj e (by simp)
      have hnd2 : (es.map derived_field).Nodup := (List.nodup_cons.mp hnd).2
      have hhead : derived_field e ∉ es.map derived_field :=
        (List.nodup_cons.mp hnd).1
      have hdisj2 : ∀ e2 ∈ es,
          derived_field e2 ∉ (acc ++ [(derived_field e, [e.msg])]).map Prod.fst := by
        intro e2 he2 hmem
        rw [List.map_append] at hmem
        rcases List.mem_append.mp hmem with hI | hII
        · exact hdisj e2 (List.mem_cons_of_mem _ he2) hI
        · have heq : derived_field e2 = derived_field e := by simpa using hII
          exact hhead (heq ▸ List.mem_map_of_mem derived_field he2)
      calc (e :: es).foldl (fun acc e => dictInsert (derived_field e) [e.msg] acc) acc
          = es.foldl (fun acc e => dictInsert (derived_field e) [e.msg] acc)
              (dictInsert (derived_field e) [e.msg] acc) := by simp
        _ = es.foldl (fun acc e => dictInsert (derived_field e) [e.msg] acc)
              (acc ++ [(derived_field e, [e.msg])]) := by
              rw [dictInsert_fresh _ _ _ hfresh]
        _ = (acc ++ [(derived_field e, [e.msg])])
              ++ es.map (fun e => (derived_field e, [e.msg])) := ih _ hnd2 hdisj2
        _ = acc ++ (e :: es).map (fun e => (derived_field e, [e.msg])) := by simp

/-- Looking up a key bound in a map whose keys are pairwise distinct
returns its value. -/
theorem dictLookup_of_mem (k : String) (v : List String) :
    ∀ m : List (String × List String), (k, v) ∈ m → (m.map Prod.fst).Nodup →
      dictLookup k m = some v := by
  intro m
  induction m with
  | nil => intro hmem _; simp at hmem
  | cons p rest ih =>
      intro hmem hnd
      obtain ⟨k2, v2⟩ := p
      by_cases hk : k2 = k
      · subst hk
        rcases List.mem_cons.mp hmem with hhd | htl
        · injection hhd with _ h2
          simp [dictLookup, h2]
        · exfalso
          have hmem2 : k2 ∈ rest.map Prod.fst := by
            simpa using List.mem_map_of_mem Prod.fst htl
          exact (List.nodup_cons.mp (by simpa using hnd)).1 hmem2
      · have htl : (k, v) ∈ rest := by
          rcases List.mem_cons.mp hmem with hhd | htl
          · exact absurd (by injection hhd with h1 _; exact h1.symm) hk
          · exact htl
        have hrec := ih htl (List.nodup_cons.mp (by simpa using hnd)).2
        simp [dictLookup, hk, hrec]

/-- Claim C6, counterexample: on a request failing on several fields where
one field (`priority`) carries two validator errors, the loop
`errors[field] = [error["msg"]]` overwrites the earlier message, so
`priority` does not map to the list of its messages — the first of its two
errors is dropped from the response. -/
theorem validation_overwrite_counterexample :
    build_validation_errors
        [{ loc := ["body", "title"], msg := "Field required" },
         { loc := ["body", "priority"], msg := "priority error one" },
         { loc := ["body", "priority"], msg := "priority error two" }]
      = [("title", ["Field required"]), ("priority", ["priority error two"])] ∧
    dictLookup "priority" (build_validation_errors
        [{ loc := ["body", "title"], msg := "Field required" },
         { loc := ["body", "priority"], msg := "priority error one" },
         { loc := ["body", "priority"], msg := "priority error two" }])
      ≠ some ["priority error one", "priority error two"] := by
  exact ⟨by decide, by decide⟩

/-- Claim C6 as amended: validation-error aggregation.  For a validation
failure whose entries have pairwise-distinct derived field keys (each
invalid field carries one validator error), the dispatched response has
status 422; the `errors` map holds exactly one entry per invalid field,
built in a single pass over the validator's error list, with each field key
equal to the underlying location with its outermost (body/query) segment
dropped and each field mapped to the singleton list of its message; and the
body is that map plus the timestamp.  (When one field repeats, only its
last message is kept.) -/
theorem validation_aggregation (entries : List ValidationEntry) (ts : String)
    (hnd : (entries.map derived_field).Nodup) :
    (dispatch (.requestValidationError { errors := entries }) ts).1.status_code = 422 ∧
    build_validation_errors entries
      = entries.map (fun e => (derived_field e, [e.msg])) ∧
    (∀ e ∈ entries,
      dictLookup (derived_field e) (build_validation_errors entries) = some [e.msg]) ∧
    (dispatch (.requestValidationError { errors := entries }) ts).1.content
      = [("errors", .obj (errMapJson (build_validation_errors entries))),
         ("timestamp", .str ts)] := by
  have hbuild : build_validation_errors entries
      = entries.map (fun e => (derived_field e, [e.msg])) :=
    foldl_dictInsert_eq entries [] hnd (by simp)
  refine ⟨rfl, hbuild, ?_, rfl⟩
  intro e he
  rw [hbuild]
  refine dictLookup_of_mem _ _ _ (List.mem_map_of_mem _ he) ?_
  simpa [List.map_map, Function.comp] using hnd

/-- Witness for C6 at the spec's scenario: missing `title` and
out-of-range `priority` in one request are both reported in the one 422
response. -/
theorem validation_aggregation_witness :
    (([{ loc := ["body", "title"], msg := "Field required" },
       { loc := ["body", "priority"], msg := "Input should be less than 6" }]
        : List ValidationEntry).map derived_field).Nodup ∧
    ((dispatch (.requestValidationError
        { errors := [{ loc := ["body", "title"], msg := "Field required" },
                     { loc := ["body", "priority"], msg := "Input should be less than 6" }] })
        "t0").1.status_code = 422 ∧
     dictLookup "title" (build_validation_errors
        [{ loc := ["body", "title"], msg := "Field required" },
         { loc := ["body", "priority"], msg := "Input should be less than 6" }])
       = some ["Field required"] ∧
     dictLookup "priority" (build_validation_errors
        [{ loc := ["body", "title"], msg := "Field required" },
         { loc := ["body", "priority"], msg := "Input should be less than 6" }])
       = some ["Input should be less than 6"]) :=
  ⟨by decide,
   (validation_aggregation
      [{ loc := ["body", "title"], msg := "Field required" },
       { loc := ["body", "priority"], msg := "Input should be less than 6" }]
      "t0" (by decide)).1,
   (validation_aggregation
      [{ loc := ["body", "title"], msg := "Field required" },
       { loc := ["body", "priority"], msg := "Input should be less than 6" }]
      "t0" (by decide)).2.2.1
     { loc := ["body", "title"], msg := "Field required" } (by simp),
   (validation_aggregation
      [{ loc := ["body", "title"], msg := "Field required" },
       { loc := ["body", "priority"], msg := "Input should be less than 6" }]
      "t0" (by decide)).2.2.1
     { loc := ["body", "priority"], msg := "Input should be less than 6" } (by simp)⟩

/-- Claim C8: login wire contract.  When the submitted username and
password match a stored credential, `login` answers with status 200 and a
body carrying the issued `access_token`, `token_type = "bearer"` and the
server-generated timestamp; when authentication fails, it answers with
status 401. -/
theorem login_wire_contract (verify : String → String → Bool)
    (db : List UserRecord) (username password : String)
    (now delta : Nat) (key alg ts : String) :
    (∀ rec : UserRecord,
      db.find? (fun u => u.username == username) = some rec →
      verify password rec.hashed_password = true →
      login verify username password db now delta key alg ts
        = .ok 200 { access_token := create_access_token rec.username rec.id rec.role
                      delta now key alg,
                    token_type := "bearer", timestamp := ts }) ∧
    (authenticate_user verify username password db = none →
      login verify username password db now delta key alg ts
        = .err 401 user_validation_failed_message) := by
  constructor
  · intro rec hf hv
    unfold login authenticate_user
    rw [hf]
    simp [hv]
  · intro h
    unfold login
    rw [h]

/-- Witness for C8, both branches: `alice` with the matching password gets
the 200 bearer body with the issued token and timestamp; `alice` with a
wrong password gets the 401. -/
theorem login_wire_contract_witness :
    (([{ username := "alice", hashed_password := "pw1-h", id := 1, role := "user" }]
        : List UserRecord).find? (fun u => u.username == "alice")
      = some { username := "alice", hashed_password := "pw1-h", id := 1, role := "user" } ∧
     login (fun pw h => pw ++ "-h" == h) "alice" "pw1"
        [{ username := "alice", hashed_password := "pw1-h", id := 1, role := "user" }]
        0 30 "k" "HS256" "2026-01-01T00:00:00+00:00"
      = .ok 200 { access_token := create_access_token "alice" 1 "user" 30 0 "k" "HS256",
                  token_type := "bearer", timestamp := "2026-01-01T00:00:00+00:00" }) ∧
    (authenticate_user (fun pw h => pw ++ "-h" == h) "alice" "wrong"
        [{ username := "alice", hashed_password := "pw1-h", id := 1, role := "user" }] = none ∧
     login (fun pw h => pw ++ "-h" == h) "alice" "wrong"
        [{ username := "alice", hashed_password := "pw1-h", id := 1, role := "user" }]
        0 30 "k" "HS256" "2026-01-01T00:00:00+00:00"
      = .err 401 user_validation_failed_message) :=
  ⟨⟨by decide,
    (login_wire_contract (fun pw h => pw ++ "-h" == h)
      [{ username := "alice", hashed_password := "pw1-h", id := 1, role := "user" }]
      "alice" "pw1" 0 30 "k" "HS256" "2026-01-01T00:00:00+00:00").1
      { username := "alice", hashed_password := "pw1-h", id := 1, role := "user" }
      (by decide) (by decide)⟩,
   ⟨by decide,
    (login_wire_contract (fun pw h => pw ++ "-h" == h)
      [{ username := "alice", hashed_password := "pw1-h", id := 1, role := "user" }]
      "alice" "wrong" 0 30 "k" "HS256" "2026-01-01T00:00:00+00:00").2
      (by decide)⟩⟩

end FastapiLearning
